import Mathlib

/-!
Verification of `torch/ao/quantization/backend_config/onednn.py`.

The file under verification is pure configuration plus small fusion
helpers.  We shallowly embed its data model and operations: dtype
configuration records, pattern-descriptor records with builder-style
setters, the eltwise fusion-pattern expansion helper, the
linear+batchnorm+leaky-relu fusion function (fallible code returns
`Except`), and the backend-descriptor assembly entry point.

Collaborators that live outside the repository slice (the
`DTypeConfig` / `BackendPatternConfig` / `BackendConfig` classes, the
per-operator-family table builders, the batch-norm fold utility and
the fused-module constructor) are modelled from the specification and
marked as such in their doc comments.
-/

/-- Numeric dtypes named by the source file: `torch.quint8`,
`torch.qint8` and `torch.float`. -/
inductive TorchDType where
  | quint8
  | qint8
  | float
deriving DecidableEq, Repr

/-- Modelled from the spec: the external `DTypeConfig` class
(`backend_config.DTypeConfig`, not under `src/`) records the expected
numeric representation for an operator's input, output, weight and
bias slots, plus a flag indicating dynamic versus static quantization
parameters; every field is optional and defaults to absent. -/
structure DTypeConfig where
  input_dtype : Option TorchDType := none
  output_dtype : Option TorchDType := none
  weight_dtype : Option TorchDType := none
  bias_dtype : Option TorchDType := none
  is_dynamic : Option Bool := none
deriving DecidableEq, Repr

/-- `onednn_weighted_op_int8_dtype_config` (onednn.py lines 34-39). -/
def onednn_weighted_op_int8_dtype_config : DTypeConfig :=
  { input_dtype := some TorchDType.quint8
    output_dtype := some TorchDType.quint8
    weight_dtype := some TorchDType.qint8
    bias_dtype := some TorchDType.float }

/-- `onednn_op_quint8_dtype_config` (onednn.py lines 41-44). -/
def onednn_op_quint8_dtype_config : DTypeConfig :=
  { input_dtype := some TorchDType.quint8
    output_dtype := some TorchDType.quint8 }

/-- `onednn_dynamic_int8_dtype_config` (onednn.py lines 46-52). -/
def onednn_dynamic_int8_dtype_config : DTypeConfig :=
  { input_dtype := some TorchDType.quint8
    output_dtype := some TorchDType.float
    weight_dtype := some TorchDType.qint8
    bias_dtype := some TorchDType.float
    is_dynamic := some true }

/-- `onednn_weight_only_qint8_dtype_config` (onednn.py lines 54-58). -/
def onednn_weight_only_qint8_dtype_config : DTypeConfig :=
  { input_dtype := some TorchDType.float
    output_dtype := some TorchDType.float
    weight_dtype := some TorchDType.qint8 }

/-- `onednn_input_output_only_quint8_dtype_config` (onednn.py lines 60-65). -/
def onednn_input_output_only_quint8_dtype_config : DTypeConfig :=
  { input_dtype := some TorchDType.quint8
    output_dtype := some TorchDType.quint8
    weight_dtype := some TorchDType.float
    bias_dtype := some TorchDType.float }

/-- Modelled from the spec: the external `ObservationType` enumeration
(observation strategies for calibration). -/
inductive ObservationType where
  | OUTPUT_USE_DIFFERENT_OBSERVER_AS_INPUT
  | OUTPUT_SHARE_OBSERVER_WITH_INPUT
deriving DecidableEq, Repr

/-- Pattern elements: the module classes and free functions that the
source file (and the modelled table builders) place inside operator
patterns.  NNModule classes and functional ops referenced by onednn.py
appear by name; each spec-modelled table-builder family contributes
one representative element. -/
inductive PElem where
  | linearMod
  | linearFn
  | leakyReLUMod
  | leakyReLUFn
  | tanhMod
  | tanhFn
  | batchNorm1dMod
  | linearLeakyReLUFused
  | linearTanhFused
  | refLinear
  | conv2d
  | addOp
  | cat
  | elu
  | hardsigmoid
  | flatten
  | batchNorm2d
  | layerNorm
  | lstm
  | embedding
deriving DecidableEq, Repr

/-- An operator pattern: a single element, a pair, or a triple,
mirroring the tuple patterns handed to `BackendPatternConfig`. -/
inductive Pattern where
  | one (a : PElem)
  | two (a b : PElem)
  | three (a b c : PElem)
deriving DecidableEq, Repr

/-- Fusion-function identities used by the source file: the result of
`_sequential_wrapper2(fused)` for a fused class, and the local
`_fuse_linear_bn_leaky_relu` function. -/
inductive FuserMethod where
  | sequentialWrapper2 (fused : PElem)
  | fuseLinearBnLeakyReLU
deriving DecidableEq, Repr

/-- Modelled from the spec: the external `BackendPatternConfig` class,
a pattern-descriptor record with builder-style setters for the
dtype-combination list, fusion function, fused-module identity,
observation strategy, root module and reference-quantized-module
identity; optional fields default to absent. -/
structure BackendPatternConfig where
  pattern : Pattern
  observation_type : Option ObservationType := none
  dtype_configs : List DTypeConfig := []
  fuser_method : Option FuserMethod := none
  fused_module : Option PElem := none
  root_module : Option PElem := none
  reference_quantized_module : Option PElem := none
deriving DecidableEq, Repr

/-- Constructor call `BackendPatternConfig(pattern)`. -/
def BackendPatternConfig.init (p : Pattern) : BackendPatternConfig :=
  { pattern := p }

/-- Builder setter `set_dtype_configs`. -/
def BackendPatternConfig.set_dtype_configs (c : BackendPatternConfig)
    (d : List DTypeConfig) : BackendPatternConfig :=
  { c with dtype_configs := d }

/-- Builder setter `set_fuser_method`. -/
def BackendPatternConfig.set_fuser_method (c : BackendPatternConfig)
    (f : FuserMethod) : BackendPatternConfig :=
  { c with fuser_method := some f }

/-- Builder setter `set_fused_module`. -/
def BackendPatternConfig.set_fused_module (c : BackendPatternConfig)
    (m : PElem) : BackendPatternConfig :=
  { c with fused_module := some m }

/-- Builder setter `set_observation_type`. -/
def BackendPatternConfig.set_observation_type (c : BackendPatternConfig)
    (o : ObservationType) : BackendPatternConfig :=
  { c with observation_type := some o }

/-- Builder setter `set_root_module`. -/
def BackendPatternConfig.set_root_module (c : BackendPatternConfig)
    (m : PElem) : BackendPatternConfig :=
  { c with root_module := some m }

/-- Builder setter `set_reference_quantized_module`. -/
def BackendPatternConfig.set_reference_quantized_module
    (c : BackendPatternConfig) (m : PElem) : BackendPatternConfig :=
  { c with reference_quantized_module := some m }

/-- `_add_eltwise_fusion_configs` (onednn.py lines 121-153).  The
Python function mutates `configs` by appending; here the updated list
is returned.  The five `configs.append` calls of the source appear in
source order. -/
def _add_eltwise_fusion_configs (configs : List BackendPatternConfig)
    (root_module : PElem) (root_op : PElem) (post_module : PElem) (post_op : PElem)
    (dtype_configs : List DTypeConfig) (fuser_method : FuserMethod)
    (fused_module : PElem) (observation_type : ObservationType)
    (ref_quant_module : PElem) : List BackendPatternConfig :=
  configs ++
    [BackendPatternConfig.init (Pattern.two root_module post_module)
       |>.set_dtype_configs dtype_configs
       |>.set_fuser_method fuser_method
       |>.set_fused_module fused_module,
     BackendPatternConfig.init (Pattern.two root_module post_op)
       |>.set_dtype_configs dtype_configs
       |>.set_fuser_method fuser_method
       |>.set_fused_module fused_module,
     BackendPatternConfig.init (Pattern.one fused_module)
       |>.set_observation_type observation_type
       |>.set_dtype_configs dtype_configs
       |>.set_root_module root_module
       |>.set_reference_quantized_module ref_quant_module,
     BackendPatternConfig.init (Pattern.two root_op post_module)
       |>.set_observation_type observation_type
       |>.set_dtype_configs dtype_configs,
     BackendPatternConfig.init (Pattern.two root_op post_op)
       |>.set_observation_type observation_type
       |>.set_dtype_configs dtype_configs]

/-- Runtime module kinds relevant to `_fuse_linear_bn_leaky_relu`.
`type(x)` of a Python instance is its exact runtime class, so an
instance of a proper subclass of `nn.Linear` has a kind distinct from
`linear`. -/
inductive ModuleType where
  | linear
  | linearSubclass
  | batchNorm1d
  | leakyReLU
  | linearLeakyReLU
  | other
deriving DecidableEq, Repr

/-- A runtime module instance: its exact runtime class, its
train/eval flag (`training`), and its submodules. -/
inductive NNModule where
  | mk (type : ModuleType) (training : Bool) (children : List NNModule)

/-- Exact runtime class of a module (Python `type(m)`). -/
def NNModule.type : NNModule → ModuleType
  | NNModule.mk t _ _ => t

/-- Train/eval flag of a module (Python `m.training`). -/
def NNModule.training : NNModule → Bool
  | NNModule.mk _ tr _ => tr

/-- Submodules of a module. -/
def NNModule.children : NNModule → List NNModule
  | NNModule.mk _ _ cs => cs

/-- Errors raised by `_fuse_linear_bn_leaky_relu`.  A Python
`NotImplementedError` message is built by formatting the offending
module tuple into a template string; the template and the formatted-in
modules are recorded separately. -/
inductive FuseError where
  | assertionError (msg : String)
  | notImplementedError (msg : String) (modules : List NNModule)

/-- Modelled from the spec: `nn.utils.fusion.fuse_linear_bn_eval`
(external numeric utility, not under `src/`) analytically folds the
batch-normalization statistics into the linear transform's weight and
bias and returns a new linear module.  The numeric fold itself is not
re-specified by the spec; the result is represented as a fresh linear
module determined by the two inputs, which are recorded as its
submodules. -/
def fuse_linear_bn_eval (linear bn : NNModule) : NNModule :=
  NNModule.mk ModuleType.linear (NNModule.training linear) [linear, bn]

/-- Modelled from the spec: the `nni.LinearLeakyReLU` fused-module
constructor (external, not under `src/`) wraps the folded linear
transform together with the activation in a new fused-module
instance; freshly constructed torch modules start in training mode. -/
def LinearLeakyReLU_new (m1 m2 : NNModule) : NNModule :=
  NNModule.mk ModuleType.linearLeakyReLU true [m1, m2]

/-- The dictionary `map_to_fused_module_eval` built inside
`_fuse_linear_bn_leaky_relu` (onednn.py lines 91-94) and its `.get`
lookup: dictionary keys are type objects compared exactly, so only the
exact class `nn.Linear` maps to a fused-module constructor. -/
def map_to_fused_module_eval (t : ModuleType) : Option (NNModule → NNModule → NNModule) :=
  match t with
  | ModuleType.linear => some LinearLeakyReLU_new
  | _ => none

/-- `_fuse_linear_bn_leaky_relu` (onednn.py lines 71-100): assert that
the three modules share a train/eval mode, reject qat fusion as not
implemented, look up the fused counterpart of the base module's exact
runtime type, and either fold and wrap or fail as not implemented. -/
def _fuse_linear_bn_leaky_relu (is_qat : Bool) (linear bn leaky_relu : NNModule) :
    Except FuseError NNModule :=
  if NNModule.training linear = NNModule.training bn ∧
      NNModule.training bn = NNModule.training leaky_relu then
    if is_qat then
      Except.error (FuseError.notImplementedError
        "Cannot fuse train modules: " [linear, bn, leaky_relu])
    else
      match map_to_fused_module_eval (NNModule.type linear) with
      | some fused_module =>
          Except.ok (fused_module (fuse_linear_bn_eval linear bn) leaky_relu)
      | none =>
          Except.error (FuseError.notImplementedError
            "Cannot fuse eval modules: " [linear, bn, leaky_relu])
  else
    Except.error (FuseError.assertionError
      "Linear, BN and LeakyReLU all must be in the same mode (train or eval).")

/-- Modelled from the spec: `_get_conv_configs` (table builder from
`_common_operator_config_utils`, not under `src/`) returns ready-made
pattern descriptors for the convolution family, parameterized by the
given dtype-combination list; represented by one convolution
descriptor. -/
def _get_conv_configs (dtype_configs : List DTypeConfig) : List BackendPatternConfig :=
  [BackendPatternConfig.init (Pattern.one PElem.conv2d)
     |>.set_dtype_configs dtype_configs]

/-- Modelled from the spec: `_get_linear_configs` (table builder, not
under `src/`) returns pattern descriptors for the linear family. -/
def _get_linear_configs (dtype_configs : List DTypeConfig) : List BackendPatternConfig :=
  [BackendPatternConfig.init (Pattern.one PElem.linearMod)
     |>.set_dtype_configs dtype_configs]

/-- Modelled from the spec: `_get_binary_op_configs` (table builder,
not under `src/`) returns pattern descriptors for binary elementwise
ops. -/
def _get_binary_op_configs (dtype_configs : List DTypeConfig) : List BackendPatternConfig :=
  [BackendPatternConfig.init (Pattern.one PElem.addOp)
     |>.set_dtype_configs dtype_configs]

/-- Modelled from the spec: `_get_cat_config` (table builder, not
under `src/`) returns the single concatenation descriptor. -/
def _get_cat_config (dtype_configs : List DTypeConfig) : BackendPatternConfig :=
  BackendPatternConfig.init (Pattern.one PElem.cat)
    |>.set_dtype_configs dtype_configs

/-- Modelled from the spec: `_get_default_op_configs` (table builder,
not under `src/`) returns pattern descriptors for generic unary
default ops. -/
def _get_default_op_configs (dtype_configs : List DTypeConfig) : List BackendPatternConfig :=
  [BackendPatternConfig.init (Pattern.one PElem.elu)
     |>.set_dtype_configs dtype_configs]

/-- Modelled from the spec: `_get_fixed_qparams_op_configs` (table
builder, not under `src/`) returns pattern descriptors for
fixed-quantization-parameter ops. -/
def _get_fixed_qparams_op_configs (dtype_configs : List DTypeConfig) : List BackendPatternConfig :=
  [BackendPatternConfig.init (Pattern.one PElem.hardsigmoid)
     |>.set_dtype_configs dtype_configs]

/-- Modelled from the spec: `_get_share_qparams_op_configs` (table
builder, not under `src/`) returns pattern descriptors for
parameter-sharing ops. -/
def _get_share_qparams_op_configs (dtype_configs : List DTypeConfig) : List BackendPatternConfig :=
  [BackendPatternConfig.init (Pattern.one PElem.flatten)
     |>.set_dtype_configs dtype_configs]

/-- Modelled from the spec: `_get_bn_configs` (table builder, not
under `src/`) returns pattern descriptors for batch-normalization
layers. -/
def _get_bn_configs (dtype_configs : List DTypeConfig) : List BackendPatternConfig :=
  [BackendPatternConfig.init (Pattern.one PElem.batchNorm2d)
     |>.set_dtype_configs dtype_configs]

/-- Modelled from the spec: `_get_ln_configs` (table builder, not
under `src/`) returns pattern descriptors for layer-normalization
layers. -/
def _get_ln_configs (dtype_configs : List DTypeConfig) : List BackendPatternConfig :=
  [BackendPatternConfig.init (Pattern.one PElem.layerNorm)
     |>.set_dtype_configs dtype_configs]

/-- Modelled from the spec: `_get_rnn_op_configs` (table builder, not
under `src/`) returns pattern descriptors for recurrent-cell ops. -/
def _get_rnn_op_configs (dtype_configs : List DTypeConfig) : List BackendPatternConfig :=
  [BackendPatternConfig.init (Pattern.one PElem.lstm)
     |>.set_dtype_configs dtype_configs]

/-- Modelled from the spec: `_get_embedding_op_configs` (table
builder, not under `src/`) returns pattern descriptors for embedding
lookups. -/
def _get_embedding_op_configs (dtype_configs : List DTypeConfig) : List BackendPatternConfig :=
  [BackendPatternConfig.init (Pattern.one PElem.embedding)
     |>.set_dtype_configs dtype_configs]

/-- `conv_dtype_configs` (onednn.py line 106). -/
def conv_dtype_configs : List DTypeConfig :=
  [onednn_weighted_op_int8_dtype_config]

/-- `conv_configs` (onednn.py line 107). -/
def conv_configs : List BackendPatternConfig :=
  _get_conv_configs conv_dtype_configs

/-- `linear_dtype_configs` (onednn.py lines 114-117). -/
def linear_dtype_configs : List DTypeConfig :=
  [onednn_weighted_op_int8_dtype_config, onednn_dynamic_int8_dtype_config]

/-- `observation_type` (onednn.py line 118). -/
def observation_type : ObservationType :=
  ObservationType.OUTPUT_USE_DIFFERENT_OBSERVER_AS_INPUT

/-- `linear_configs` (onednn.py lines 119 and 155-172): the linear
table-builder output, extended by the leaky-relu eltwise expansion,
the linear+batchnorm+leaky-relu fusion descriptor, and the tanh
eltwise expansion, in source order. -/
def linear_configs : List BackendPatternConfig :=
  let c0 := _get_linear_configs linear_dtype_configs
  let c1 := _add_eltwise_fusion_configs c0 PElem.linearMod PElem.linearFn
    PElem.leakyReLUMod PElem.leakyReLUFn linear_dtype_configs
    (FuserMethod.sequentialWrapper2 PElem.linearLeakyReLUFused)
    PElem.linearLeakyReLUFused observation_type PElem.refLinear
  let c2 := c1 ++
    [BackendPatternConfig.init
        (Pattern.three PElem.linearMod PElem.batchNorm1dMod PElem.leakyReLUMod)
       |>.set_dtype_configs linear_dtype_configs
       |>.set_fuser_method FuserMethod.fuseLinearBnLeakyReLU
       |>.set_fused_module PElem.linearLeakyReLUFused]
  _add_eltwise_fusion_configs c2 PElem.linearMod PElem.linearFn
    PElem.tanhMod PElem.tanhFn linear_dtype_configs
    (FuserMethod.sequentialWrapper2 PElem.linearTanhFused)
    PElem.linearTanhFused observation_type PElem.refLinear

/-- `binary_op_dtype_configs` (onednn.py line 178). -/
def binary_op_dtype_configs : List DTypeConfig := [onednn_op_quint8_dtype_config]

/-- `default_op_dtype_configs` (onednn.py line 179). -/
def default_op_dtype_configs : List DTypeConfig := [onednn_op_quint8_dtype_config]

/-- `fixed_qparams_op_dtype_configs` (onednn.py line 180). -/
def fixed_qparams_op_dtype_configs : List DTypeConfig := [onednn_op_quint8_dtype_config]

/-- `share_qparams_op_dtype_configs` (onednn.py line 181). -/
def share_qparams_op_dtype_configs : List DTypeConfig := [onednn_op_quint8_dtype_config]

/-- `rnn_op_dtype_configs` (onednn.py line 182). -/
def rnn_op_dtype_configs : List DTypeConfig := [onednn_dynamic_int8_dtype_config]

/-- `embedding_op_dtype_configs` (onednn.py line 183). -/
def embedding_op_dtype_configs : List DTypeConfig := [onednn_weight_only_qint8_dtype_config]

/-- `layer_norm_op_dtype_configs` (onednn.py line 184). -/
def layer_norm_op_dtype_configs : List DTypeConfig :=
  [onednn_input_output_only_quint8_dtype_config]

/-- Modelled from the spec: the external `BackendConfig` class, an
ordered collection of pattern descriptors keyed by backend name. -/
structure BackendConfig where
  name : String
  pattern_configs : List BackendPatternConfig := []
deriving DecidableEq, Repr

/-- Constructor call `BackendConfig(name)`. -/
def BackendConfig.init (n : String) : BackendConfig :=
  { name := n }

/-- Builder setter `set_backend_pattern_configs`: appends the given
descriptors to the ordered collection. -/
def BackendConfig.set_backend_pattern_configs (c : BackendConfig)
    (cs : List BackendPatternConfig) : BackendConfig :=
  { c with pattern_configs := c.pattern_configs ++ cs }

/-- Builder setter `set_backend_pattern_config`: appends one
descriptor. -/
def BackendConfig.set_backend_pattern_config (c : BackendConfig)
    (x : BackendPatternConfig) : BackendConfig :=
  { c with pattern_configs := c.pattern_configs ++ [x] }

/-- `get_onednn_backend_config` (onednn.py lines 190-205): the nullary
public entry point assembling the full backend descriptor. -/
def get_onednn_backend_config (_ : Unit) : BackendConfig :=
  BackendConfig.init "onednn"
    |>.set_backend_pattern_configs conv_configs
    |>.set_backend_pattern_configs linear_configs
    |>.set_backend_pattern_configs (_get_binary_op_configs binary_op_dtype_configs)
    |>.set_backend_pattern_config (_get_cat_config default_op_dtype_configs)
    |>.set_backend_pattern_configs (_get_default_op_configs default_op_dtype_configs)
    |>.set_backend_pattern_configs (_get_fixed_qparams_op_configs fixed_qparams_op_dtype_configs)
    |>.set_backend_pattern_configs (_get_share_qparams_op_configs share_qparams_op_dtype_configs)
    |>.set_backend_pattern_configs (_get_bn_configs default_op_dtype_configs)
    |>.set_backend_pattern_configs (_get_ln_configs layer_norm_op_dtype_configs)
    |>.set_backend_pattern_configs (_get_rnn_op_configs rnn_op_dtype_configs)
    |>.set_backend_pattern_configs (_get_embedding_op_configs embedding_op_dtype_configs)

/-- Whether a pattern element belongs to the convolution family. -/
def PElem.isConvElem : PElem → Bool
  | PElem.conv2d => true
  | _ => false

/-- Whether a pattern element belongs to the linear family. -/
def PElem.isLinearElem : PElem → Bool
  | PElem.linearMod => true
  | PElem.linearFn => true
  | PElem.linearLeakyReLUFused => true
  | PElem.linearTanhFused => true
  | _ => false

/-- Whether a pattern element is a binary elementwise op. -/
def PElem.isBinaryElem : PElem → Bool
  | PElem.addOp => true
  | _ => false

/-- Whether a pattern element is a normalization layer. -/
def PElem.isNormElem : PElem → Bool
  | PElem.batchNorm1dMod => true
  | PElem.batchNorm2d => true
  | PElem.layerNorm => true
  | _ => false

/-- Whether any element of a pattern satisfies the classifier. -/
def Pattern.mentionsElem (f : PElem → Bool) : Pattern → Bool
  | Pattern.one a => f a
  | Pattern.two a b => f a || f b
  | Pattern.three a b c => f a || f b || f c

/-- Whether a pattern descriptor's pattern satisfies the classifier. -/
def BackendPatternConfig.mentionsElem (c : BackendPatternConfig)
    (f : PElem → Bool) : Bool :=
  Pattern.mentionsElem f c.pattern

/-- A concrete `nn.Linear` instance in training mode. -/
def linearTrainSample : NNModule := NNModule.mk ModuleType.linear true []

/-- A concrete `nn.BatchNorm1d` instance in training mode. -/
def bnTrainSample : NNModule := NNModule.mk ModuleType.batchNorm1d true []

/-- A concrete `nn.LeakyReLU` instance in training mode. -/
def leakyReLUTrainSample : NNModule := NNModule.mk ModuleType.leakyReLU true []

/-- A concrete `nn.Linear` instance in eval mode. -/
def linearEvalSample : NNModule := NNModule.mk ModuleType.linear false []

/-- A concrete `nn.BatchNorm1d` instance in eval mode. -/
def bnEvalSample : NNModule := NNModule.mk ModuleType.batchNorm1d false []

/-- A concrete `nn.LeakyReLU` instance in eval mode. -/
def leakyReLUEvalSample : NNModule := NNModule.mk ModuleType.leakyReLU false []

/-- A concrete instance of a proper subclass of `nn.Linear` in eval
mode: its exact runtime class is the subclass, not `nn.Linear`. -/
def linearSubclassEvalSample : NNModule := NNModule.mk ModuleType.linearSubclass false []

/-- The fused-counterpart dictionary maps every exact runtime type
other than `nn.Linear` to nothing. -/
theorem map_to_fused_module_eval_eq_none (t : ModuleType)
    (h : t ≠ ModuleType.linear) : map_to_fused_module_eval t = none := by
  cases t <;> first | rfl | exact absurd rfl h

/-- C6: the five data-type-combination constants have exactly the
documented field values: weighted-op has quint8 input and output,
qint8 weight and float bias; the quint8-only config has quint8 input
and output and no weight or bias dtype; the dynamic config has quint8
input, float output, qint8 weight, float bias and its dynamic flag set
true; the weight-only config has float input and output and qint8
weight; and the input/output-only config has quint8 input and output
with float weight and bias. -/
theorem onednn_dtype_config_values :
    onednn_weighted_op_int8_dtype_config.input_dtype = some TorchDType.quint8 ∧
    onednn_weighted_op_int8_dtype_config.output_dtype = some TorchDType.quint8 ∧
    onednn_weighted_op_int8_dtype_config.weight_dtype = some TorchDType.qint8 ∧
    onednn_weighted_op_int8_dtype_config.bias_dtype = some TorchDType.float ∧
    onednn_op_quint8_dtype_config.input_dtype = some TorchDType.quint8 ∧
    onednn_op_quint8_dtype_config.output_dtype = some TorchDType.quint8 ∧
    onednn_op_quint8_dtype_config.weight_dtype = none ∧
    onednn_op_quint8_dtype_config.bias_dtype = none ∧
    onednn_dynamic_int8_dtype_config.input_dtype = some TorchDType.quint8 ∧
    onednn_dynamic_int8_dtype_config.output_dtype = some TorchDType.float ∧
    onednn_dynamic_int8_dtype_config.weight_dtype = some TorchDType.qint8 ∧
    onednn_dynamic_int8_dtype_config.bias_dtype = some TorchDType.float ∧
    onednn_dynamic_int8_dtype_config.is_dynamic = some true ∧
    onednn_weight_only_qint8_dtype_config.input_dtype = some TorchDType.float ∧
    onednn_weight_only_qint8_dtype_config.output_dtype = some TorchDType.float ∧
    onednn_weight_only_qint8_dtype_config.weight_dtype = some TorchDType.qint8 ∧
    onednn_input_output_only_quint8_dtype_config.input_dtype = some TorchDType.quint8 ∧
    onednn_input_output_only_quint8_dtype_config.output_dtype = some TorchDType.quint8 ∧
    onednn_input_output_only_quint8_dtype_config.weight_dtype = some TorchDType.float ∧
    onednn_input_output_only_quint8_dtype_config.bias_dtype = some TorchDType.float := by
  decide

/-- C1, counterexample: on a concrete valid input tuple starting from
the empty collection, `_add_eltwise_fusion_configs` produces a
collection of five descriptors, not four, so the helper does not
append exactly four pattern descriptors. -/
theorem eltwise_appends_four_counterexample :
    (_add_eltwise_fusion_configs [] PElem.linearMod PElem.linearFn
      PElem.leakyReLUMod PElem.leakyReLUFn linear_dtype_configs
      (FuserMethod.sequentialWrapper2 PElem.linearLeakyReLUFused)
      PElem.linearLeakyReLUFused observation_type PElem.refLinear).length = 5 ∧
    ¬ (_add_eltwise_fusion_configs [] PElem.linearMod PElem.linearFn
      PElem.leakyReLUMod PElem.leakyReLUFn linear_dtype_configs
      (FuserMethod.sequentialWrapper2 PElem.linearLeakyReLUFused)
      PElem.linearLeakyReLUFused observation_type PElem.refLinear).length = 4 := by
  decide

/-- C1, amended: for every valid input tuple,
`_add_eltwise_fusion_configs` appends exactly five pattern descriptors
to the caller-supplied collection. -/
theorem eltwise_appends_five (configs : List BackendPatternConfig)
    (root_module root_op post_module post_op : PElem)
    (dtype_configs : List DTypeConfig) (fuser_method : FuserMethod)
    (fused_module : PElem) (observation_type : ObservationType)
    (ref_quant_module : PElem) :
    (_add_eltwise_fusion_configs configs root_module root_op post_module post_op
      dtype_configs fuser_method fused_module observation_type
      ref_quant_module).length = configs.length + 5 := by
  simp [_add_eltwise_fusion_configs]

/-- C9: on any prior collection, `_add_eltwise_fusion_configs` leaves
the prior elements unchanged and in their original order as a prefix
of the result, and the elements after them do not depend on the prior
contents (append-only, order-preserving). -/
theorem eltwise_append_only_frame (configs : List BackendPatternConfig)
    (root_module root_op post_module post_op : PElem)
    (dtype_configs : List DTypeConfig) (fuser_method : FuserMethod)
    (fused_module : PElem) (observation_type : ObservationType)
    (ref_quant_module : PElem) :
    (_add_eltwise_fusion_configs configs root_module root_op post_module post_op
      dtype_configs fuser_method fused_module observation_type
      ref_quant_module).take configs.length = configs ∧
    (_add_eltwise_fusion_configs configs root_module root_op post_module post_op
      dtype_configs fuser_method fused_module observation_type
      ref_quant_module).drop configs.length =
      _add_eltwise_fusion_configs [] root_module root_op post_module post_op
        dtype_configs fuser_method fused_module observation_type
        ref_quant_module := by
  constructor
  · simp [_add_eltwise_fusion_configs, List.take_left]
  · simp [_add_eltwise_fusion_configs, List.drop_left]

/-- C2, counterexample: with the qat flag unset, three modules all in
training mode and a base module of exact type `nn.Linear`, the
function returns a fused module instead of raising the
unsupported-fusion error. -/
theorem train_mode_counterexample :
    NNModule.training linearTrainSample = true ∧
    NNModule.training bnTrainSample = true ∧
    NNModule.training leakyReLUTrainSample = true ∧
    _fuse_linear_bn_leaky_relu false linearTrainSample bnTrainSample
      leakyReLUTrainSample =
      Except.ok (LinearLeakyReLU_new
        (fuse_linear_bn_eval linearTrainSample bnTrainSample)
        leakyReLUTrainSample) :=
  ⟨rfl, rfl, rfl, rfl⟩

/-- C2, amended: for every call with three modules all in training
mode and the training-aware-quantization flag set, the function raises
the unsupported-fusion error naming the modules, regardless of the
modules' concrete types. -/
theorem train_mode_qat_raises (linear bn leaky_relu : NNModule)
    (h1 : NNModule.training linear = true)
    (h2 : NNModule.training bn = true)
    (h3 : NNModule.training leaky_relu = true) :
    _fuse_linear_bn_leaky_relu true linear bn leaky_relu =
      Except.error (FuseError.notImplementedError
        "Cannot fuse train modules: " [linear, bn, leaky_relu]) := by
  unfold _fuse_linear_bn_leaky_relu
  rw [h1, h2, h3]
  rfl

/-- C2 witness: the amended statement at concrete training-mode
modules. -/
theorem train_mode_qat_raises_witness :
    _fuse_linear_bn_leaky_relu true linearTrainSample bnTrainSample
      leakyReLUTrainSample =
      Except.error (FuseError.notImplementedError
        "Cannot fuse train modules: "
        [linearTrainSample, bnTrainSample, leakyReLUTrainSample]) :=
  train_mode_qat_raises linearTrainSample bnTrainSample leakyReLUTrainSample
    rfl rfl rfl

/-- C3: whenever the three modules do not all share the same
train/eval mode, the function fails with the contract-violation
(assertion) error, for either value of the qat flag — so before the
qat check, the fused-counterpart lookup and the batch-norm fold. -/
theorem mode_mismatch_asserts (is_qat : Bool) (linear bn leaky_relu : NNModule)
    (h : ¬ (NNModule.training linear = NNModule.training bn ∧
            NNModule.training bn = NNModule.training leaky_relu)) :
    _fuse_linear_bn_leaky_relu is_qat linear bn leaky_relu =
      Except.error (FuseError.assertionError
        "Linear, BN and LeakyReLU all must be in the same mode (train or eval).") := by
  unfold _fuse_linear_bn_leaky_relu
  rw [if_neg h]

/-- C3 witness: an eval-mode linear with training-mode batch-norm and
activation triggers the assertion error even with the qat flag set. -/
theorem mode_mismatch_asserts_witness :
    _fuse_linear_bn_leaky_relu true linearEvalSample bnTrainSample
      leakyReLUTrainSample =
      Except.error (FuseError.assertionError
        "Linear, BN and LeakyReLU all must be in the same mode (train or eval).") :=
  mode_mismatch_asserts true linearEvalSample bnTrainSample
    leakyReLUTrainSample (by decide)

/-- C4: with the qat flag set and all three modules in the same mode,
the function fails with the not-implemented error whose message embeds
the offending linear, batch-norm and leaky-relu modules. -/
theorem qat_raises_naming_modules (linear bn leaky_relu : NNModule)
    (h : NNModule.training linear = NNModule.training bn ∧
         NNModule.training bn = NNModule.training leaky_relu) :
    _fuse_linear_bn_leaky_relu true linear bn leaky_relu =
      Except.error (FuseError.notImplementedError
        "Cannot fuse train modules: " [linear, bn, leaky_relu]) := by
  unfold _fuse_linear_bn_leaky_relu
  rw [if_pos h]
  rfl

/-- C4 witness: the statement at concrete eval-mode modules. -/
theorem qat_raises_naming_modules_witness :
    _fuse_linear_bn_leaky_relu true linearEvalSample bnEvalSample
      leakyReLUEvalSample =
      Except.error (FuseError.notImplementedError
        "Cannot fuse train modules: "
        [linearEvalSample, bnEvalSample, leakyReLUEvalSample]) :=
  qat_raises_naming_modules linearEvalSample bnEvalSample leakyReLUEvalSample
    ⟨rfl, rfl⟩

/-- C5: with the qat flag unset and all three modules in the same
mode, if the base module's exact runtime type has no registered fused
counterpart the function fails with the not-implemented error naming
the input modules; if the base module is exactly an `nn.Linear`, it
returns a fused module wrapping the batch-norm-folded linear transform
together with the leaky-relu activation. -/
theorem eval_fusion_lookup_behavior (linear bn leaky_relu : NNModule)
    (h : NNModule.training linear = NNModule.training bn ∧
         NNModule.training bn = NNModule.training leaky_relu) :
    (map_to_fused_module_eval (NNModule.type linear) = none →
      _fuse_linear_bn_leaky_relu false linear bn leaky_relu =
        Except.error (FuseError.notImplementedError
          "Cannot fuse eval modules: " [linear, bn, leaky_relu])) ∧
    (NNModule.type linear = ModuleType.linear →
      _fuse_linear_bn_leaky_relu false linear bn leaky_relu =
        Except.ok (LinearLeakyReLU_new (fuse_linear_bn_eval linear bn)
          leaky_relu)) := by
  constructor
  · intro hn
    unfold _fuse_linear_bn_leaky_relu
    rw [if_pos h, hn]
    rfl
  · intro ht
    unfold _fuse_linear_bn_leaky_relu
    rw [if_pos h, ht]
    rfl

/-- C5 witness: at concrete eval-mode modules with an exact
`nn.Linear` base, the fused module wrapping the fold and the
activation is returned. -/
theorem eval_fusion_lookup_behavior_witness :
    _fuse_linear_bn_leaky_relu false linearEvalSample bnEvalSample
      leakyReLUEvalSample =
      Except.ok (LinearLeakyReLU_new
        (fuse_linear_bn_eval linearEvalSample bnEvalSample)
        leakyReLUEvalSample) :=
  (eval_fusion_lookup_behavior linearEvalSample bnEvalSample
    leakyReLUEvalSample ⟨rfl, rfl⟩).2 rfl

/-- C10: the eval-mode fused-counterpart lookup dispatches on the
exact runtime type of the base module: whenever that type is not
exactly `nn.Linear` — in particular for instances of proper subclasses
of `nn.Linear` — the function raises the not-implemented error rather
than fusing. -/
theorem eval_fusion_exact_type_dispatch (linear bn leaky_relu : NNModule)
    (hmode : NNModule.training linear = NNModule.training bn ∧
             NNModule.training bn = NNModule.training leaky_relu)
    (htype : NNModule.type linear ≠ ModuleType.linear) :
    _fuse_linear_bn_leaky_relu false linear bn leaky_relu =
      Except.error (FuseError.notImplementedError
        "Cannot fuse eval modules: " [linear, bn, leaky_relu]) := by
  unfold _fuse_linear_bn_leaky_relu
  rw [if_pos hmode, map_to_fused_module_eval_eq_none _ htype]
  rfl

/-- C10 witness: a concrete instance of a proper subclass of
`nn.Linear` in eval mode is rejected with the not-implemented
error. -/
theorem eval_fusion_exact_type_dispatch_witness :
    _fuse_linear_bn_leaky_relu false linearSubclassEvalSample bnEvalSample
      leakyReLUEvalSample =
      Except.error (FuseError.notImplementedError
        "Cannot fuse eval modules: "
        [linearSubclassEvalSample, bnEvalSample, leakyReLUEvalSample]) :=
  eval_fusion_exact_type_dispatch linearSubclassEvalSample bnEvalSample
    leakyReLUEvalSample ⟨rfl, rfl⟩ (by decide)

/-- C7: the assembled backend descriptor is named "onednn", its
pattern-descriptor list is non-empty, and it contains at least one
convolution pattern, one linear pattern, one binary-op pattern and one
normalization pattern. -/
theorem onednn_backend_config_contents :
    (get_onednn_backend_config ()).name = "onednn" ∧
    (get_onednn_backend_config ()).pattern_configs ≠ [] ∧
    ((get_onednn_backend_config ()).pattern_configs.any
      (fun c => BackendPatternConfig.mentionsElem c PElem.isConvElem)) = true ∧
    ((get_onednn_backend_config ()).pattern_configs.any
      (fun c => BackendPatternConfig.mentionsElem c PElem.isLinearElem)) = true ∧
    ((get_onednn_backend_config ()).pattern_configs.any
      (fun c => BackendPatternConfig.mentionsElem c PElem.isBinaryElem)) = true ∧
    ((get_onednn_backend_config ()).pattern_configs.any
      (fun c => BackendPatternConfig.mentionsElem c PElem.isNormElem)) = true := by
  decide

/-- C8: calling the nullary assembly entry point twice yields
descriptors with identical content: construction is deterministic. -/
theorem get_onednn_backend_config_deterministic (u v : Unit) :
    get_onednn_backend_config u = get_onednn_backend_config v := rfl
